import Mathlib

/-!
Shallow embedding of the netflix-clone backend.

The authoritative revision is `src/index.js` (Express over PostgreSQL); the
earlier Supabase revision `src/unnamed/part_001` is embedded separately where
a claim cites behavior specific to it (the OAuth callback's error handling).

Tables are lists of rows; each HTTP route handler becomes a pure function
from the store (and the request's session object) to a response, paired with
the updated store when the route mutates it.
-/

namespace NetflixBackend

/-- A row of the `users` table: columns `user_id`, `email`, `name`. -/
structure UserRow where
  user_id : Nat
  email : String
  name : String
deriving DecidableEq, Repr

/-- A row of the `profiles` table: columns `profile_id`, `user_id`, `profile_name`. -/
structure ProfileRow where
  profile_id : Nat
  user_id : Nat
  profile_name : String
deriving DecidableEq, Repr

/-- A row of the `favorites` table. -/
structure FavoriteRow where
  user_id : Nat
  profile_id : Nat
  movie_id : Nat
  movie_poster : String
  movie_title : String
  movie_year : Nat
deriving DecidableEq, Repr

/-- The backing store: the three tables the routes touch. -/
structure Db where
  users : List UserRow
  profiles : List ProfileRow
  favorites : List FavoriteRow
deriving DecidableEq, Repr

/-- The session user object `req.user` as the handlers dereference it:
`req.user.emails[i].value` (a list of email strings) and
`req.user.profile_name` (a field that may be absent on the JS object,
hence an `Option`). -/
structure SessionUser where
  emails : List String
  profile_name : Option String
deriving DecidableEq, Repr

/-- `req.isAuthenticated()` and `req.user` together: `none` models an
unauthenticated request, `some u` an authenticated one with `req.user = u`. -/
abbrev Session := Option SessionUser

/-- JSON response bodies, keyed the way the source writes them:
`Body.msg s` is `{message: s}`, `Body.err s` is `{error: s}`. -/
inductive Body where
  | msg (s : String)
  | err (s : String)
  | authStatus (authenticated : Bool) (email : Option String)
  | favorite (f : FavoriteRow)
  | favoritesList (fs : List FavoriteRow)
  | profileOpt (p : Option ProfileRow)
deriving DecidableEq, Repr

/-- An HTTP response: a JSON response with a status code, a redirect
(HTTP 302), or the framework's default uncaught-exception error page. -/
inductive Resp where
  | json (status : Nat) (body : Body)
  | redirect (url : String)
  | uncaughtError
deriving DecidableEq, Repr

/-- The status code of a response (redirects are 302, the framework's
uncaught-exception page is 500). -/
def Resp.status : Resp → Nat
  | .json s _ => s
  | .redirect _ => 302
  | .uncaughtError => 500

/-- `SELECT user_id FROM users WHERE email = $1`: the matching rows. -/
def findUsersByEmail (db : Db) (e : String) : List UserRow :=
  db.users.filter (fun u => u.email == e)

/-- Opaque configuration value `process.env.FRONT_END_URL` (src/index.js). -/
def frontEndUrl : String := "FRONT_END_URL"

/-- Opaque configuration value `process.env.FRONTEND_URL` (part_001). -/
def frontendUrl : String := "FRONTEND_URL"

/-- The identity-resolution step of the OAuth callback (src/index.js lines
65-79): look the email up in `users`; if no row matches, insert
`{email, name}` (the database assigns the new `user_id`, passed here as
`freshId`); otherwise leave the table unchanged. -/
def resolveIdentity (users : List UserRow) (email name : String) (freshId : Nat) : List UserRow :=
  if (users.filter (fun u => u.email == email)).length == 0 then
    users ++ [{ user_id := freshId, email := email, name := name }]
  else
    users

/-- Number of `users` rows carrying a given email. -/
def countEmail (users : List UserRow) (e : String) : Nat :=
  (users.filter (fun u => u.email == e)).length

/-- The response of the `GET /auth/google/callback` handler in src/index.js,
as a function of the outcomes of the storage lookup and insert. The whole
body is wrapped in try/catch whose catch only logs, and
`res.redirect(process.env.FRONT_END_URL)` runs after the try/catch on every
path. -/
def googleCallbackPg (lookup : Except Unit (List UserRow)) (ins : Except Unit Unit) : Resp :=
  match lookup with
  | Except.error _ => Resp.redirect frontEndUrl
  | Except.ok rows =>
    if rows.length == 0 then
      match ins with
      | Except.error _ => Resp.redirect frontEndUrl
      | Except.ok _ => Resp.redirect frontEndUrl
    else Resp.redirect frontEndUrl

/-- The response of the `GET /auth/google/callback` handler in
src/unnamed/part_001 (lines 107-134): a select or insert error is thrown and
caught, and the catch sends `500 {message: "Internal Server Error"}`;
otherwise the handler redirects to `process.env.FRONTEND_URL`. -/
def googleCallbackPart001 (lookup : Except Unit (List UserRow)) (ins : Except Unit Unit) : Resp :=
  match lookup with
  | Except.error _ => Resp.json 500 (Body.msg "Internal Server Error")
  | Except.ok rows =>
    if rows.length == 0 then
      match ins with
      | Except.error _ => Resp.json 500 (Body.msg "Internal Server Error")
      | Except.ok _ => Resp.redirect frontendUrl
    else Resp.redirect frontendUrl

/-- `GET /auth/status` (src/index.js lines 89-98): unauthenticated requests
get `200 {authenticated: false}`; authenticated ones get
`200 {authenticated: true, email: req.user.emails[0].value}`. Reading
`.value` of `emails[0]` when `emails` is empty or absent throws, and the
handler has no try/catch, so the framework's default 500 page results. -/
def authStatusHandler (sess : Session) : Resp :=
  match sess with
  | none => Resp.json 200 (Body.authStatus false none)
  | some u =>
    match u.emails.head? with
    | some e => Resp.json 200 (Body.authStatus true (some e))
    | none => Resp.uncaughtError

/-- Outcome of the `req.logout(cb)` framework call. -/
inductive LogoutResult where
  | ok
  | err
deriving DecidableEq, Repr

/-- `POST /auth/logout` (src/index.js lines 100-111): 403 when not
authenticated; otherwise `req.logout` runs, its error maps to 500 and
success to 200 with the session destroyed. Returns (response, session
after, store after). -/
def logoutHandler (db : Db) (sess : Session) (r : LogoutResult) : Resp × Session × Db :=
  match sess with
  | none => (Resp.json 403 (Body.msg "User not authenticated"), none, db)
  | some u =>
    match r with
    | LogoutResult.err => (Resp.json 500 (Body.msg "Logout failed"), some u, db)
    | LogoutResult.ok => (Resp.json 200 (Body.msg "Logged out successfully"), none, db)

/-- The body of a `POST /favorites` request. The three required fields are
`Option`s because the handler validates their presence
(`if (!email || !profile_id || !movie_id)` maps a missing field to 400). -/
structure FavReq where
  email : Option String
  profile_id : Option Nat
  movie_id : Option Nat
  movie_poster : String
  movie_title : String
  movie_year : Nat
deriving DecidableEq, Repr

/-- `POST /favorites` (src/index.js lines 114-175): validate the required
fields; resolve the email to a `users` row (404 when none); 409 when a
favorite with the same (user_id, profile_id, movie_id) already exists;
otherwise insert the favorite and return it with 201. -/
def addFavoriteHandler (db : Db) (r : FavReq) : Resp × Db :=
  match r.email, r.profile_id, r.movie_id with
  | some e, some pid, some mid =>
    match (findUsersByEmail db e).head? with
    | none => (Resp.json 404 (Body.err "User not found"), db)
    | some ur =>
      let uid := ur.user_id
      let checkResult := db.favorites.filter
        (fun f => f.user_id == uid && f.profile_id == pid && f.movie_id == mid)
      if checkResult.length > 0 then
        (Resp.json 409 (Body.err "This movie is already in favorites"), db)
      else
        let newFav : FavoriteRow :=
          { user_id := uid, profile_id := pid, movie_id := mid,
            movie_poster := r.movie_poster, movie_title := r.movie_title,
            movie_year := r.movie_year }
        (Resp.json 201 (Body.favorite newFav), { db with favorites := db.favorites ++ [newFav] })
  | _, _, _ => (Resp.json 400 (Body.err "Email, profile_id, and movie_id are required"), db)

/-- Whether a favorite row matches the DELETE query's WHERE clause
`user_id = $1 AND movie_id = $2 AND profile_id = $3`. -/
def favMatches (uid mid pid : Nat) (f : FavoriteRow) : Bool :=
  f.user_id == uid && f.movie_id == mid && f.profile_id == pid

/-- `DELETE /favorites/:movie_id/:profile_id` (src/index.js lines 178-213):
403 when `!req.isAuthenticated() || req.user.profile_name === "Guest"`;
otherwise resolve `req.user.emails[0].value` to a `users` row (404 when
none; reading it when `emails` is empty throws inside the try, which the
catch maps to 500); run the keyed DELETE; 404 when it removed zero rows,
200 otherwise. Returns (response, store after). -/
def deleteFavoriteHandler (db : Db) (sess : Session) (movie_id profile_id : Nat) : Resp × Db :=
  match sess with
  | none => (Resp.json 403 (Body.msg "Guests cannot remove favorites."), db)
  | some u =>
    if u.profile_name == some "Guest" then
      (Resp.json 403 (Body.msg "Guests cannot remove favorites."), db)
    else
      match u.emails.head? with
      | none => (Resp.json 500 (Body.msg "Failed to remove favorite movie"), db)
      | some e =>
        match (findUsersByEmail db e).head? with
        | none => (Resp.json 404 (Body.msg "User not found"), db)
        | some ur =>
          let uid := ur.user_id
          let rowCount :=
            (db.favorites.filter (favMatches uid movie_id profile_id)).length
          let remaining :=
            db.favorites.filter (fun f => !(favMatches uid movie_id profile_id f))
          let dbAfter := { db with favorites := remaining }
          if rowCount == 0 then
            (Resp.json 404 (Body.msg "Favorite not found"), dbAfter)
          else
            (Resp.json 200 (Body.msg "Movie removed from favorites"), dbAfter)

/-- `GET /favorites?profile_id=` (src/index.js lines 216-255): 400 without a
profile_id; resolve the profile's `user_id` from the `profiles` table (404
when the profile does not exist); list favorites matching both the
profile_id and that user_id; an empty result maps to 404, a non-empty one
to 200 with the rows. -/
def listFavoritesHandler (db : Db) (profile_id : Option Nat) : Resp :=
  match profile_id with
  | none => Resp.json 400 (Body.err "Profile ID is required")
  | some pid =>
    match (db.profiles.filter (fun p => p.profile_id == pid)).head? with
    | none => Resp.json 404 (Body.err "No user found for this profile")
    | some pr =>
      let result := db.favorites.filter
        (fun f => f.profile_id == pid && f.user_id == pr.user_id)
      if result.length == 0 then
        Resp.json 404 (Body.err "No favorites found for this profile")
      else
        Resp.json 200 (Body.favoritesList result)

/-- The row transformation of
`UPDATE profiles SET profile_name = $1 WHERE profile_id = $2`: rows whose
`profile_id` matches get the new name, all others are untouched. -/
def applyNameUpdate (pid : Nat) (name : String) (r : ProfileRow) : ProfileRow :=
  if r.profile_id == pid then { r with profile_name := name } else r

/-- `PUT /profiles` (src/index.js lines 349-374): 400 when `profile_id` or
`profile_name` is missing; run the keyed UPDATE; 404 when it touched zero
rows, otherwise 200 with the first updated row (`result.rows[0]`). Returns
(response, store after). -/
def updateProfileHandler (db : Db) (profile_id : Option Nat) (profile_name : Option String) :
    Resp × Db :=
  match profile_id, profile_name with
  | some pid, some name =>
    let updated := db.profiles.map (applyNameUpdate pid name)
    let rowCount := (db.profiles.filter (fun r => r.profile_id == pid)).length
    let dbAfter := { db with profiles := updated }
    if rowCount == 0 then
      (Resp.json 404 (Body.msg "Profile not found."), dbAfter)
    else
      (Resp.json 200 (Body.profileOpt ((updated.filter (fun r => r.profile_id == pid)).head?)),
        dbAfter)
  | _, _ => (Resp.json 400 (Body.msg "Profile ID and name are required."), db)

/-! ## Helper lemmas -/

theorem countEmail_append (l m : List UserRow) (e : String) :
    countEmail (l ++ m) e = countEmail l e + countEmail m e := by
  simp [countEmail, List.filter_append]

theorem resolveIdentity_noop (t : List UserRow) (e n : String) (j : Nat)
    (h : countEmail t e ≠ 0) : resolveIdentity t e n j = t := by
  unfold resolveIdentity
  unfold countEmail at h
  rw [if_neg (by simpa using h)]

/-! ## Claim theorems -/

/-- Claim C2: resolving the same (external_id, email) twice through the OAuth
callback's lookup-then-insert step leaves exactly one `users` row with that
email — the second invocation finds the existing row and performs no insert —
and the "at most one User per email" invariant is preserved. -/
theorem resolveIdentity_idempotent_unique (s : List UserRow) (e n : String) (i j : Nat)
    (hinv : ∀ e2, countEmail s e2 ≤ 1) :
    resolveIdentity (resolveIdentity s e n i) e n j = resolveIdentity s e n i ∧
    countEmail (resolveIdentity s e n i) e = 1 ∧
    ∀ e2, countEmail (resolveIdentity s e n i) e2 ≤ 1 := by
  by_cases h0 : countEmail s e = 0
  · have hfirst : resolveIdentity s e n i = s ++ [{ user_id := i, email := e, name := n }] := by
      unfold resolveIdentity
      unfold countEmail at h0
      simp [h0]
    have hone : countEmail [({ user_id := i, email := e, name := n } : UserRow)] e = 1 := by
      simp [countEmail]
    have hcount1 : countEmail (resolveIdentity s e n i) e = 1 := by
      rw [hfirst, countEmail_append, h0, hone]
    refine ⟨?_, hcount1, ?_⟩
    · exact resolveIdentity_noop _ e n j (by rw [hcount1]; exact Nat.one_ne_zero)
    · intro e2
      rw [hfirst, countEmail_append]
      by_cases he2 : e2 = e
      · subst he2
        rw [h0, hone]
      · have hz : countEmail [({ user_id := i, email := e, name := n } : UserRow)] e2 = 0 := by
          simp [countEmail]
          intro hh
          exact absurd hh.symm he2
        rw [hz]
        simpa using hinv e2
  · have h1 : countEmail s e = 1 :=
      Nat.le_antisymm (hinv e) (Nat.one_le_iff_ne_zero.mpr h0)
    have hfirst : resolveIdentity s e n i = s := resolveIdentity_noop s e n i h0
    refine ⟨?_, ?_, ?_⟩
    · rw [hfirst]
      exact resolveIdentity_noop s e n j h0
    · rw [hfirst]
      exact h1
    · intro e2
      rw [hfirst]
      exact hinv e2

/-- Witness for C2 at a concrete input: starting from an empty `users` table,
resolving `a@b.c` twice is the same as resolving it once, and leaves exactly
one row with that email. -/
theorem resolveIdentity_idempotent_unique_witness :
    resolveIdentity (resolveIdentity [] "a@b.c" "Ann" 1) "a@b.c" "Ann" 2 =
      resolveIdentity [] "a@b.c" "Ann" 1 ∧
    countEmail (resolveIdentity [] "a@b.c" "Ann" 1) "a@b.c" = 1 := by
  have h := resolveIdentity_idempotent_unique [] "a@b.c" "Ann" 1 2
    (by intro e2; simp [countEmail])
  exact ⟨h.1, h.2.1⟩

/-- Claim C7: `GET /auth/status` never produces an error response: without a
valid session it answers `200 {authenticated: false}`, and with a valid
session (whose user object carries an email entry) it answers
`200 {authenticated: true, email}`. -/
theorem auth_status_never_errors (sess : Session)
    (h : ∀ u, sess = some u → u.emails ≠ []) :
    (sess = none → authStatusHandler sess = Resp.json 200 (Body.authStatus false none)) ∧
    (∀ u, sess = some u →
      authStatusHandler sess = Resp.json 200 (Body.authStatus true u.emails.head?)) ∧
    (authStatusHandler sess).status = 200 := by
  cases sess with
  | none => exact ⟨fun _ => rfl, fun u hu => Option.noConfusion hu, rfl⟩
  | some u =>
    have hne := h u rfl
    cases he : u.emails.head? with
    | none => exact absurd (List.head?_eq_none_iff.mp he) hne
    | some e =>
      refine ⟨fun hh => Option.noConfusion hh, fun v hv => ?_, ?_⟩
      · injection hv with h2
        subst h2
        simp [authStatusHandler, he]
      · simp [authStatusHandler, he, Resp.status]

/-- Witness for C7 at concrete inputs: an unauthenticated request and an
authenticated one with email `a@b.c` both get 200 with the stated bodies. -/
theorem auth_status_never_errors_witness :
    authStatusHandler none = Resp.json 200 (Body.authStatus false none) ∧
    authStatusHandler (some { emails := ["a@b.c"], profile_name := none }) =
      Resp.json 200 (Body.authStatus true (some "a@b.c")) := by
  constructor
  · exact (auth_status_never_errors none (fun u hu => Option.noConfusion hu)).1 rfl
  · have h := auth_status_never_errors (some { emails := ["a@b.c"], profile_name := none })
      (by intro u hu; injection hu with h2; subst h2; simp)
    simpa using h.2.1 _ rfl

/-- Claim C8: `POST /auth/logout` on an unauthenticated request returns 403
and leaves both the session and the backing store exactly as they were,
whatever the framework's logout callback would have reported. -/
theorem logout_unauthenticated_403_no_effect (db : Db) (r : LogoutResult) :
    logoutHandler db none r = (Resp.json 403 (Body.msg "User not authenticated"), none, db) :=
  rfl

/-- Claim C4: a `POST /favorites` request whose (user_id, profile_id,
movie_id) triple — with user_id resolved from the request's email — matches
the store's unique existing favorite row answers 409 and leaves the store
unchanged: it still contains exactly one row with that triple. -/
theorem duplicate_favorite_conflict_store_unchanged (db : Db) (e : String) (pid mid : Nat)
    (poster title : String) (year : Nat) (ur : UserRow)
    (hu : (findUsersByEmail db e).head? = some ur)
    (hcount : (db.favorites.filter
      (fun f => f.user_id == ur.user_id && f.profile_id == pid && f.movie_id == mid)).length = 1) :
    addFavoriteHandler db
        { email := some e, profile_id := some pid, movie_id := some mid,
          movie_poster := poster, movie_title := title, movie_year := year } =
      (Resp.json 409 (Body.err "This movie is already in favorites"), db) ∧
    ((addFavoriteHandler db
        { email := some e, profile_id := some pid, movie_id := some mid,
          movie_poster := poster, movie_title := title, movie_year := year }).2.favorites.filter
      (fun f => f.user_id == ur.user_id && f.profile_id == pid && f.movie_id == mid)).length = 1 := by
  have hmain : addFavoriteHandler db
      { email := some e, profile_id := some pid, movie_id := some mid,
        movie_poster := poster, movie_title := title, movie_year := year } =
      (Resp.json 409 (Body.err "This movie is already in favorites"), db) := by
    simp [addFavoriteHandler, hu, hcount]
  refine ⟨hmain, ?_⟩
  rw [hmain]
  exact hcount

/-- Witness for C4 at a concrete input: with user 1 owning the single
favorite (1, 2, 42), adding (a@b.c, 2, 42) again answers 409 and the store
still holds exactly one matching row. -/
theorem duplicate_favorite_conflict_store_unchanged_witness :
    addFavoriteHandler
        { users := [{ user_id := 1, email := "a@b.c", name := "Ann" }],
          profiles := [{ profile_id := 2, user_id := 1, profile_name := "Main" }],
          favorites := [{ user_id := 1, profile_id := 2, movie_id := 42,
                          movie_poster := "p", movie_title := "t", movie_year := 2001 }] }
        { email := some "a@b.c", profile_id := some 2, movie_id := some 42,
          movie_poster := "p", movie_title := "t", movie_year := 2001 } =
      (Resp.json 409 (Body.err "This movie is already in favorites"),
        { users := [{ user_id := 1, email := "a@b.c", name := "Ann" }],
          profiles := [{ profile_id := 2, user_id := 1, profile_name := "Main" }],
          favorites := [{ user_id := 1, profile_id := 2, movie_id := 42,
                          movie_poster := "p", movie_title := "t", movie_year := 2001 }] }) :=
  (duplicate_favorite_conflict_store_unchanged
    { users := [{ user_id := 1, email := "a@b.c", name := "Ann" }],
      profiles := [{ profile_id := 2, user_id := 1, profile_name := "Main" }],
      favorites := [{ user_id := 1, profile_id := 2, movie_id := 42,
                      movie_poster := "p", movie_title := "t", movie_year := 2001 }] }
    "a@b.c" 2 42 "p" "t" 2001 { user_id := 1, email := "a@b.c", name := "Ann" }
    (by decide) (by decide)).1

/-- Claim C5: `GET /favorites?profile_id=` for a profile that exists but has
zero matching favorite rows answers 404, not a 200 with an empty list. -/
theorem list_favorites_empty_not_found (db : Db) (pid : Nat) (pr : ProfileRow)
    (hp : (db.profiles.filter (fun p => p.profile_id == pid)).head? = some pr)
    (hf : (db.favorites.filter
      (fun f => f.profile_id == pid && f.user_id == pr.user_id)).length = 0) :
    listFavoritesHandler db (some pid) =
      Resp.json 404 (Body.err "No favorites found for this profile") := by
  simp [listFavoritesHandler, hp, hf]

/-- Witness for C5 at a concrete input: profile 2 of user 1 exists but the
favorites table is empty, and the route answers 404. -/
theorem list_favorites_empty_not_found_witness :
    listFavoritesHandler
        { users := [{ user_id := 1, email := "a@b.c", name := "Ann" }],
          profiles := [{ profile_id := 2, user_id := 1, profile_name := "Main" }],
          favorites := [] } (some 2) =
      Resp.json 404 (Body.err "No favorites found for this profile") :=
  list_favorites_empty_not_found
    { users := [{ user_id := 1, email := "a@b.c", name := "Ann" }],
      profiles := [{ profile_id := 2, user_id := 1, profile_name := "Main" }],
      favorites := [] } 2 { profile_id := 2, user_id := 1, profile_name := "Main" }
    (by decide) (by decide)

/-- Claim C6: a `POST /favorites` request with all required fields present
whose email matches no `users` row answers 404 "User not found" and leaves
the store — in particular the `users` table — unchanged: the route never
creates a user. -/
theorem add_favorite_unknown_user_404 (db : Db) (e : String) (pid mid : Nat)
    (poster title : String) (year : Nat)
    (hu : findUsersByEmail db e = []) :
    addFavoriteHandler db
        { email := some e, profile_id := some pid, movie_id := some mid,
          movie_poster := poster, movie_title := title, movie_year := year } =
      (Resp.json 404 (Body.err "User not found"), db) := by
  simp [addFavoriteHandler, hu]

/-- Witness for C6 at a concrete input: with an empty `users` table, adding
a favorite for `a@b.com` answers 404 and the store is unchanged. -/
theorem add_favorite_unknown_user_404_witness :
    addFavoriteHandler { users := [], profiles := [], favorites := [] }
        { email := some "a@b.com", profile_id := some 1, movie_id := some 42,
          movie_poster := "p", movie_title := "t", movie_year := 2001 } =
      (Resp.json 404 (Body.err "User not found"),
        { users := [], profiles := [], favorites := [] }) :=
  add_favorite_unknown_user_404 { users := [], profiles := [], favorites := [] }
    "a@b.com" 1 42 "p" "t" 2001 (by decide)

/-- Claim C1, counterexample: in the state of the claim's own scenario — a
`profiles` row `{user_id := 7, profile_name := "Guest"}`, user 7
authenticated, and the targeted favorite present — the DELETE answers 200
(and deletes the favorite), not 403: the handler tests
`req.user.profile_name`, a field the session user object does not carry,
and never consults the `profiles` table. -/
theorem guest_profile_delete_returns_200_cex :
    (deleteFavoriteHandler
        { users := [{ user_id := 7, email := "u7@x.com", name := "U Seven" }],
          profiles := [{ profile_id := 1, user_id := 7, profile_name := "Guest" }],
          favorites := [{ user_id := 7, profile_id := 1, movie_id := 42,
                          movie_poster := "p", movie_title := "t", movie_year := 2001 }] }
        (some { emails := ["u7@x.com"], profile_name := none }) 42 1).1 =
      Resp.json 200 (Body.msg "Movie removed from favorites") ∧
    (deleteFavoriteHandler
        { users := [{ user_id := 7, email := "u7@x.com", name := "U Seven" }],
          profiles := [{ profile_id := 1, user_id := 7, profile_name := "Guest" }],
          favorites := [{ user_id := 7, profile_id := 1, movie_id := 42,
                          movie_poster := "p", movie_title := "t", movie_year := 2001 }] }
        (some { emails := ["u7@x.com"], profile_name := none }) 42 1).1.status ≠ 403 := by
  constructor
  · decide
  · decide

/-- Claim C1, amended: `DELETE /favorites/:movie_id/:profile_id` answers 403
exactly when the requester is unauthenticated or the session user object
itself carries `profile_name = "Guest"`; the `profiles` table row named
"Guest" addressed by the URL's profile_id is never consulted. -/
theorem delete_favorite_403_iff_session_guest (db : Db) (sess : Session) (m p : Nat) :
    (deleteFavoriteHandler db sess m p).1.status = 403 ↔
      sess = none ∨ ∃ u, sess = some u ∧ u.profile_name = some "Guest" := by
  cases sess with
  | none => simp [deleteFavoriteHandler, Resp.status]
  | some u =>
    by_cases hg : u.profile_name = some "Guest"
    · simp [deleteFavoriteHandler, hg, Resp.status]
    · cases he : u.emails.head? with
      | none => simp [deleteFavoriteHandler, hg, he, Resp.status]
      | some e =>
        cases hr : (findUsersByEmail db e).head? with
        | none => simp [deleteFavoriteHandler, hg, he, hr, Resp.status]
        | some ur =>
          by_cases hc :
              (db.favorites.filter (favMatches ur.user_id m p)).length = 0
          · simp [deleteFavoriteHandler, hg, he, hr, hc, Resp.status]
          · simp [deleteFavoriteHandler, hg, he, hr, hc, Resp.status]

/-- Claim C3, counterexample: in the part_001 revision a failed storage
lookup in the OAuth callback yields a raw `500 {message: "Internal Server
Error"}`, not a redirect; and in the src/index.js revision the
storage-error response is identical to the success response (the redirect
to FRONT_END_URL), so the failure does not surface at all. -/
theorem oauth_callback_storage_error_cex :
    googleCallbackPart001 (Except.error ()) (Except.ok ()) =
      Resp.json 500 (Body.msg "Internal Server Error") ∧
    googleCallbackPg (Except.error ()) (Except.ok ()) =
      googleCallbackPg (Except.ok [{ user_id := 1, email := "a@b.c", name := "Ann" }])
        (Except.ok ()) :=
  ⟨rfl, rfl⟩

/-- Claim C3, amended: a storage error during the OAuth callback's identity
resolution does not surface as an authentication failure. In src/index.js
the error is caught, logged and the caller receives the same redirect to
FRONT_END_URL as on success (which is also the value configured as
failureRedirect); in the part_001 revision a lookup or insert error yields
a raw 500 JSON error, and only the error-free paths redirect. -/
theorem oauth_callback_storage_error_behavior (lookup : Except Unit (List UserRow))
    (ins ins2 : Except Unit Unit) :
    googleCallbackPg lookup ins = Resp.redirect frontEndUrl ∧
    googleCallbackPart001 (Except.error ()) ins2 =
      Resp.json 500 (Body.msg "Internal Server Error") ∧
    googleCallbackPart001 (Except.ok []) (Except.error ()) =
      Resp.json 500 (Body.msg "Internal Server Error") ∧
    googleCallbackPart001 (Except.ok []) (Except.ok ()) = Resp.redirect frontendUrl := by
  refine ⟨?_, rfl, rfl, rfl⟩
  cases lookup with
  | error e => rfl
  | ok rows => cases ins <;> simp [googleCallbackPg]

/-- Claim C9: an authenticated `DELETE /favorites/:movie_id/:profile_id`
whose session email resolves to the `users` row `ur` leaves every favorite
row of every other user untouched: the sublist of favorites with
`user_id ≠ ur.user_id` is the same before and after the request, whatever
the response was. -/
theorem delete_favorite_scoped_to_resolved_user (db : Db) (su : SessionUser)
    (m p : Nat) (e : String) (ur : UserRow)
    (he : su.emails.head? = some e)
    (hu : (findUsersByEmail db e).head? = some ur) :
    ((deleteFavoriteHandler db (some su) m p).2.favorites).filter
        (fun f => !(f.user_id == ur.user_id)) =
      db.favorites.filter (fun f => !(f.user_id == ur.user_id)) := by
  have hpt : (fun f : FavoriteRow =>
        ((!(f.user_id == ur.user_id)) && (!(favMatches ur.user_id m p f)))) =
      (fun f : FavoriteRow => (!(f.user_id == ur.user_id))) := by
    funext f
    by_cases hfu : f.user_id = ur.user_id
    · simp [favMatches, hfu]
    · simp [favMatches, hfu]
  by_cases hg : su.profile_name = some "Guest"
  · simp [deleteFavoriteHandler, hg]
  · by_cases hc : (db.favorites.filter (favMatches ur.user_id m p)).length = 0
    · simp [deleteFavoriteHandler, hg, he, hu, hc]
      rw [hpt]
    · simp [deleteFavoriteHandler, hg, he, hu, hc]
      rw [hpt]

/-- Witness for C9 at a concrete input: users 1 and 9 both favorited movie
42 on profile 2; user 1's authenticated delete leaves user 9's row set
unchanged. -/
theorem delete_favorite_scoped_to_resolved_user_witness :
    ((deleteFavoriteHandler
        { users := [{ user_id := 1, email := "a@b.c", name := "Ann" }],
          profiles := [{ profile_id := 2, user_id := 1, profile_name := "Main" }],
          favorites := [{ user_id := 1, profile_id := 2, movie_id := 42,
                          movie_poster := "p", movie_title := "t", movie_year := 2001 },
                        { user_id := 9, profile_id := 2, movie_id := 42,
                          movie_poster := "q", movie_title := "s", movie_year := 2002 }] }
        (some { emails := ["a@b.c"], profile_name := none }) 42 2).2.favorites).filter
        (fun f => !(f.user_id == 1)) =
      ([{ user_id := 1, profile_id := 2, movie_id := 42,
          movie_poster := "p", movie_title := "t", movie_year := 2001 },
        { user_id := 9, profile_id := 2, movie_id := 42,
          movie_poster := "q", movie_title := "s", movie_year := 2002 }] :
        List FavoriteRow).filter (fun f => !(f.user_id == 1)) :=
  delete_favorite_scoped_to_resolved_user
    { users := [{ user_id := 1, email := "a@b.c", name := "Ann" }],
      profiles := [{ profile_id := 2, user_id := 1, profile_name := "Main" }],
      favorites := [{ user_id := 1, profile_id := 2, movie_id := 42,
                      movie_poster := "p", movie_title := "t", movie_year := 2001 },
                    { user_id := 9, profile_id := 2, movie_id := 42,
                      movie_poster := "q", movie_title := "s", movie_year := 2002 }] }
    { emails := ["a@b.c"], profile_name := none } 42 2 "a@b.c"
    { user_id := 1, email := "a@b.c", name := "Ann" } (by decide) (by decide)

/-- Claim C10: a successful `PUT /profiles` (body-keyed) changes only the
`profile_name` of rows whose `profile_id` matches the request: `users` and
`favorites` are untouched, the profiles table becomes a pointwise map that
preserves every row's `profile_id` and `user_id` and leaves every row with
a different `profile_id` identical. -/
theorem update_profile_frame_effect (db : Db) (pid : Nat) (name : String)
    (hex : (db.profiles.filter (fun r => r.profile_id == pid)).length ≠ 0) :
    (updateProfileHandler db (some pid) (some name)).1.status = 200 ∧
    (updateProfileHandler db (some pid) (some name)).2.users = db.users ∧
    (updateProfileHandler db (some pid) (some name)).2.favorites = db.favorites ∧
    (updateProfileHandler db (some pid) (some name)).2.profiles =
      db.profiles.map (applyNameUpdate pid name) ∧
    (∀ r : ProfileRow, (applyNameUpdate pid name r).profile_id = r.profile_id ∧
      (applyNameUpdate pid name r).user_id = r.user_id) ∧
    (∀ r : ProfileRow, r.profile_id ≠ pid → applyNameUpdate pid name r = r) := by
  refine ⟨?_, ?_, ?_, ?_, ?_, ?_⟩
  · simp [updateProfileHandler, hex, Resp.status]
  · simp [updateProfileHandler, hex]
  · simp [updateProfileHandler, hex]
  · simp [updateProfileHandler, hex]
  · intro r
    by_cases h : r.profile_id = pid <;> simp [applyNameUpdate, h]
  · intro r h
    simp [applyNameUpdate, h]

/-- Witness for C10 at a concrete input: renaming profile 1 of user 7
succeeds with 200, maps the profiles table pointwise, and leaves users and
favorites untouched. -/
theorem update_profile_frame_effect_witness :
    (updateProfileHandler
        { users := [{ user_id := 7, email := "a@b.c", name := "Ann" }],
          profiles := [{ profile_id := 1, user_id := 7, profile_name := "Old" },
                       { profile_id := 2, user_id := 7, profile_name := "Keep" }],
          favorites := [] } (some 1) (some "New")).1.status = 200 ∧
    (updateProfileHandler
        { users := [{ user_id := 7, email := "a@b.c", name := "Ann" }],
          profiles := [{ profile_id := 1, user_id := 7, profile_name := "Old" },
                       { profile_id := 2, user_id := 7, profile_name := "Keep" }],
          favorites := [] } (some 1) (some "New")).2.profiles =
      ([{ profile_id := 1, user_id := 7, profile_name := "Old" },
        { profile_id := 2, user_id := 7, profile_name := "Keep" }] :
        List ProfileRow).map (applyNameUpdate 1 "New") := by
  have h := update_profile_frame_effect
    { users := [{ user_id := 7, email := "a@b.c", name := "Ann" }],
      profiles := [{ profile_id := 1, user_id := 7, profile_name := "Old" },
                   { profile_id := 2, user_id := 7, profile_name := "Keep" }],
      favorites := [] } 1 "New" (by decide)
  exact ⟨h.1, h.2.2.2.1⟩

end NetflixBackend
